import Mathlib

/-!
Verification of the spotyfire-backend core subsystems, shallowly embedded
from the Python sources:

* `app/services/alert_notifier.py` — proximity alert monitor
  (`calculate_distance_km`, `get_user_email_from_stack`,
  `check_alerts_for_users`);
* `app/services/email_service.py` — notification rendering
  (`send_alert_email`, which renders `alert_data[:10]`);
* `app/services/firms.py` — hotspot ingestion (`FIRMSClient.get_active_fires`);
* `app/services/gee_service.py` — change-detection estimator
  (`analyze_farm`, `analyze_property_gee`, `analyze_property_gee_comparison`).

Remote services (Earth Engine reductions, HTTP responses, the Stack Auth
directory, SMTP) are modelled as explicit inputs to the embedded functions;
numbers flowing through the Python code are modelled as exact rationals
(ℚ), except the geodesy utility whose trigonometry is modelled over ℝ.
-/

namespace Spotyfire

/-! ## Definitions -/

/-! ### Python `round(x, 2)`

Python's builtin `round` rounds to the nearest value, breaking ties to the
even digit (banker's rounding).  `round(x, 2)` is modelled on ℚ as
round-half-even of `x * 100`, divided by 100. -/

/-- Round a rational to the nearest integer, ties to even. -/
def roundHalfEven (x : ℚ) : ℤ :=
  let f : ℤ := ⌊x⌋
  let r : ℚ := x - f
  if r < 1/2 then f
  else if 1/2 < r then f + 1
  else if f % 2 = 0 then f else f + 1

/-- Python `round(x, 2)` on exact rationals. -/
def pyRound2 (x : ℚ) : ℚ := (roundHalfEven (x * 100) : ℚ) / 100

/-- A rational that is an integer number of hundredths (two decimals). -/
def Cent (x : ℚ) : Prop := ∃ n : ℤ, x = (n : ℚ) / 100

/-! ### Proximity classification (`check_alerts_for_users`, lines 100–125)

The monitor computes, for each (property, alert) pair, the distance between
the property's center and the alert location, then:

    proximity_threshold = alert.radius_km if alert.radius_km else 10.0
    if distance <= proximity_threshold or distance <= 20.0: ...
        'is_within_radius': distance <= (alert.radius_km or 10.0)

`alert.radius_km` is a nullable float column; both Python spellings
(`x if x else d` and `x or d`) substitute the default when the value is
`None` **or** `0.0` (falsy). -/

/-- Python `r if r else 10.0` / `r or 10.0` on a nullable float:
the default 10.0 is used when `r` is `None` or `0.0`. -/
def pyDefault (r : Option ℚ) : ℚ :=
  match r with
  | none => 10
  | some x => if x = 0 then 10 else x

/-- The monitor's relevance test: `distance <= proximity_threshold or distance <= 20.0`. -/
def is_relevant (d : ℚ) (r : Option ℚ) : Bool :=
  decide (d ≤ pyDefault r) || decide (d ≤ 20)

/-- The monitor's stored flag: `'is_within_radius': distance <= (alert.radius_km or 10.0)`. -/
def is_within (d : ℚ) (r : Option ℚ) : Bool :=
  decide (d ≤ pyDefault r)

/-- Modelled from the spec's words (claim C8): a pair is relevant iff
`distance ≤ max(alert.radius_km, 10.0)` or `distance ≤ 20.0`, with 10.0
substituted only when the radius is absent. -/
def spec_relevant (d : ℚ) (r : Option ℚ) : Bool :=
  decide (d ≤ max (r.getD 10) 10) || decide (d ≤ 20)

/-- Modelled from the spec's words (claim C8): `is_within_radius` iff
`distance ≤ alert.radius_km`, with 10.0 substituted only when the radius
is absent. -/
def spec_within (d : ℚ) (r : Option ℚ) : Bool :=
  decide (d ≤ r.getD 10)

/-! ### Monitor scan pipeline (`check_alerts_for_users`, lines 98–139)

The scan is a nested loop: for each property (load order), for each active
alert (load order), classify the pair; relevant pairs are appended to
`nearby_alerts`, and a property with a non-empty list extends
`user_alerts_map[user_id]` (a `dict`, which preserves key insertion
order).  The geodesy call `calculate_distance_km` is injected as a
function argument `dist` (its float result modelled as ℚ); the real-valued
haversine itself is analysed separately below. -/

/-- An active alert row as read by the monitor (`Alert.lat/lng/radius_km`). -/
structure AlertRow where
  lat : ℚ
  lng : ℚ
  radius_km : Option ℚ
  deriving DecidableEq, Repr

/-- A property row as read by the monitor (`Property.user_id/center_lat/center_lng`). -/
structure PropertyRow where
  user_id : String
  center_lat : ℚ
  center_lng : ℚ
  deriving DecidableEq, Repr

/-- One entry of `nearby_alerts`: the dict
`{'alert': .., 'property': .., 'distance_km': round(d, 2), 'is_within_radius': ..}`. -/
structure AlertMatch where
  alert : AlertRow
  property : PropertyRow
  distance_km : ℚ
  is_within_radius : Bool
  deriving DecidableEq, Repr

/-- The inner loop over `active_alerts` for one property. -/
def nearbyFor (dist : ℚ → ℚ → ℚ → ℚ → ℚ) (alerts : List AlertRow)
    (p : PropertyRow) : List AlertMatch :=
  alerts.filterMap fun al =>
    let d := dist p.center_lat p.center_lng al.lat al.lng
    if is_relevant d al.radius_km then
      some ⟨al, p, pyRound2 d, is_within d al.radius_km⟩
    else none

/-- `user_alerts_map[user_id].extend(nearby_alerts)` with dict insertion
order: append to the existing key, or add a new key at the end. -/
def insertAppend (m : List (String × List AlertMatch)) (uid : String)
    (ps : List AlertMatch) : List (String × List AlertMatch) :=
  match m with
  | [] => [(uid, ps)]
  | (k, v) :: rest =>
    if k = uid then (k, v ++ ps) :: rest else (k, v) :: insertAppend rest uid ps

/-- One iteration of the outer loop over `properties`: compute
`nearby_alerts` and, if non-empty, extend the user's entry. -/
def scanStep (dist : ℚ → ℚ → ℚ → ℚ → ℚ) (alerts : List AlertRow)
    (m : List (String × List AlertMatch)) (p : PropertyRow) :
    List (String × List AlertMatch) :=
  let nb := nearbyFor dist alerts p
  if nb.isEmpty then m else insertAppend m p.user_id nb

/-- The outer loop over `properties` building `user_alerts_map`. -/
def user_alerts_map (dist : ℚ → ℚ → ℚ → ℚ → ℚ) (props : List PropertyRow)
    (alerts : List AlertRow) : List (String × List AlertMatch) :=
  props.foldl (scanStep dist alerts) []

/-- First-match association lookup (Python dict access by key). -/
def listLookup (m : List (String × List AlertMatch)) (uid : String) :
    Option (List AlertMatch) :=
  match m with
  | [] => none
  | (k, v) :: rest => if k = uid then some v else listLookup rest uid

/-- The rows rendered by `send_alert_email`: `for item in alert_data[:10]`
— the first ten entries in list order, no sorting. -/
def emailRows (alert_data : List AlertMatch) : List AlertMatch :=
  alert_data.take 10

/-- Modelled from the spec's words (claim C1): insertion sort of the
matches by ascending `distance_km`. -/
def insertByDist (m : AlertMatch) : List AlertMatch → List AlertMatch
  | [] => [m]
  | x :: xs =>
    if m.distance_km ≤ x.distance_km then m :: x :: xs else x :: insertByDist m xs

/-- Modelled from the spec's words (claim C1): the matches sorted by
ascending distance. -/
def sortByDistance (l : List AlertMatch) : List AlertMatch :=
  l.foldr insertByDist []

/-- Modelled from the spec's words (claim C1): the claimed notification
bundle — the user's relevant pairs sorted by ascending distance, capped
to the ten closest. -/
def claimedBundle (l : List AlertMatch) : List AlertMatch :=
  (sortByDistance l).take 10

/-- The flat scan list: all relevant pairs in scan order
(properties outer, alerts inner). -/
def scanList (dist : ℚ → ℚ → ℚ → ℚ → ℚ) (props : List PropertyRow)
    (alerts : List AlertRow) : List AlertMatch :=
  (props.map (nearbyFor dist alerts)).flatten

/-! ### Geodesy utility (`calculate_distance_km`, alert_notifier.py lines
49–60; the identical copy in routes/alerts.py lines 17–28)

    R = 6371.0
    lat1_rad = math.radians(lat1); lat2_rad = math.radians(lat2)
    delta_lat = math.radians(lat2 - lat1); delta_lng = math.radians(lng2 - lng1)
    a = math.sin(delta_lat / 2)**2 + math.cos(lat1_rad) * math.cos(lat2_rad) * math.sin(delta_lng / 2)**2
    c = 2 * math.atan2(math.sqrt(a), math.sqrt(1 - a))
    distance = R * c

The float arithmetic is modelled over ℝ.  Python's `math.sqrt` raises
`ValueError` on a negative argument, so it is modelled as a partial
function returning `none` exactly on negative input; there is **no
clamping of `a` (or `1 - a`) to `[0, 1]` anywhere in the source**. -/

noncomputable section Geodesy

open Real

/-- `math.radians`: degrees to radians. -/
def radians (x : ℝ) : ℝ := x * π / 180

/-- `math.sqrt`: raises (`none`) on a negative argument. -/
def pySqrt (x : ℝ) : Option ℝ := if 0 ≤ x then some (Real.sqrt x) else none

/-- `math.atan2(y, x)` (two-argument arctangent, standard quadrant fix-up;
`atan2(0, 0) = 0` as in CPython). -/
def pyAtan2 (y x : ℝ) : ℝ :=
  if 0 < x then arctan (y / x)
  else if x < 0 then (if 0 ≤ y then arctan (y / x) + π else arctan (y / x) - π)
  else if 0 < y then π / 2
  else if y < 0 then -(π / 2)
  else 0

/-- The haversine intermediate `a` as computed by the source. -/
def haversine_a (lat1 lng1 lat2 lng2 : ℝ) : ℝ :=
  Real.sin (radians (lat2 - lat1) / 2) ^ 2 +
    Real.cos (radians lat1) * Real.cos (radians lat2) *
      Real.sin (radians (lng2 - lng1) / 2) ^ 2

/-- The tail of `calculate_distance_km` applied to the intermediate `a`:
`R * (2 * atan2(sqrt(a), sqrt(1 - a)))`, partial because each `sqrt`
raises on a negative argument. -/
def distanceFromA (a : ℝ) : Option ℝ :=
  (pySqrt a).bind fun s1 =>
    (pySqrt (1 - a)).bind fun s2 =>
      some (6371 * (2 * pyAtan2 s1 s2))

/-- `calculate_distance_km`, as the source computes it. -/
def calculate_distance_km (lat1 lng1 lat2 lng2 : ℝ) : Option ℝ :=
  distanceFromA (haversine_a lat1 lng1 lat2 lng2)

end Geodesy

/-! ### Directory lookup and dispatch skip (`get_user_email_from_stack`,
alert_notifier.py lines 22–46; loop lines 129–139)

The Stack Auth HTTP call is modelled as an explicit outcome: either an
exception (`failure`) or a response with a status code and the four JSON
fields the code reads.  Python string truthiness (`a or b` falls through
on `None` and `""`) is modelled by `pyOrOpt` / `pyOrStr`. -/

/-- Outcome of the Stack Auth API call. -/
inductive StackOutcome where
  | failure
  | response (status : ℕ) (primary_email : Option String)
      (auth_value : Option String) (display_name : Option String)
      (meta_name : Option String)
  deriving DecidableEq

/-- Python `a or b` where `a` is a possibly-missing, possibly-empty string. -/
def pyOrOpt (a b : Option String) : Option String :=
  match a with
  | some s => if s = "" then b else some s
  | none => b

/-- Python `a or dflt` resolving to a plain string. -/
def pyOrStr (a : Option String) (dflt : String) : String :=
  match a with
  | some s => if s = "" then dflt else s
  | none => dflt

/-- `f"user-{user_id[:8]}@example.com"`. -/
def fallbackEmail (user_id : String) : String :=
  "user-" ++ user_id.take 8 ++ "@example.com"

/-- `f"User {user_id[:8]}"`. -/
def fallbackName (user_id : String) : String :=
  "User " ++ user_id.take 8

/-- `get_user_email_from_stack`: total (every exception is caught),
returning `(email, name)`. -/
def get_user_email_from_stack (user_id : String) (o : StackOutcome) :
    String × String :=
  match o with
  | .failure => (fallbackEmail user_id, fallbackName user_id)
  | .response status pe av dn mn =>
    if status = 200 then
      let email := pyOrOpt pe av
      let name := pyOrStr (pyOrOpt dn mn) (fallbackName user_id)
      (pyOrStr email (fallbackEmail user_id), name)
    else
      (fallbackEmail user_id, fallbackName user_id)

/-- Python `s.endswith(suffix)`. -/
def pyEndsWith (s suf : String) : Bool := decide (suf.data <:+ s.data)

/-- The dispatch guard: `if user_email and not user_email.endswith("@example.com")`. -/
def sendsTo (email : String) : Bool :=
  (!decide (email = "")) && (!pyEndsWith email "@example.com")

/-! ### Hotspot ingestion (`FIRMSClient.get_active_fires`, firms.py lines 25–84)

The HTTP fetch + CSV parse is modelled as an outcome: `failure` for any
exception in `requests.get` / `raise_for_status` / `read_csv` (all caught,
mock data returned), or `ok frame` for a parsed table.  A parsed row's
cells are `Option`s (a cell can be absent when its column is absent). -/

/-- A parsed CSV row; fields the code selects. -/
structure RawRow where
  latitude : Option ℚ
  longitude : Option ℚ
  confidence : Option String
  bright_ti4 : Option ℚ
  deriving DecidableEq, Repr

/-- A pandas DataFrame, as far as this code observes it: its column list
and its rows. -/
structure Frame where
  columns : List String
  rows : List RawRow
  deriving DecidableEq, Repr

/-- The fixed mock fallback frame (two placeholder fire points). -/
def mockFrame : Frame :=
  ⟨["latitude", "longitude", "confidence", "bright_ti4"],
   [⟨some (45435/1000), some (27722/1000), some "high", some (3205/10)⟩,
    ⟨some (45441/1000), some (27735/1000), some "nominal", some (3152/10)⟩]⟩

/-- `_empty_frame()`: the standard columns, zero rows. -/
def emptyFrame : Frame :=
  ⟨["latitude", "longitude", "confidence", "bright_ti4"], []⟩

/-- The client after `__init__`: `api_key or ""` and
`day_range = max(1, min(int(day_range), 10))`. -/
structure FIRMSClient where
  api_key : String
  day_range : ℤ
  deriving DecidableEq, Repr

/-- `FIRMSClient.__init__` with its day-range clamp. -/
def FIRMSClient.make (api_key : String) (day_range : ℤ) : FIRMSClient :=
  ⟨api_key, max 1 (min day_range 10)⟩

/-- Outcome of the FIRMS HTTP fetch and CSV parse. -/
inductive HttpOutcome where
  | failure
  | ok (df : Frame)
  deriving DecidableEq

/-- `FIRMSClient.get_active_fires`.  `Except.error` models an uncaught
`ValueError` (malformed bbox with a present API key); every other path
returns a frame. -/
def get_active_fires (c : FIRMSClient) (bbox : List ℚ) (resp : HttpOutcome) :
    Except String Frame :=
  if c.api_key = "" then .ok mockFrame
  else if bbox.length ≠ 4 then .error "bbox must be [west, south, east, north]"
  else
    match resp with
    | .failure => .ok mockFrame
    | .ok df =>
      if df.rows.isEmpty then .ok emptyFrame
      else if "latitude" ∉ df.columns ∨ "longitude" ∉ df.columns then .ok emptyFrame
      else
        .ok ⟨["latitude", "longitude", "confidence", "bright_ti4"],
          df.rows.map fun r =>
            { r with
              confidence :=
                if "confidence" ∈ df.columns then r.confidence else some "unknown",
              bright_ti4 :=
                if "bright_ti4" ∈ df.columns then r.bright_ti4 else some 300 }⟩

/-! ### Change-detection estimator (`gee_service.py`)

All Earth Engine round-trips are modelled as an explicit environment per
`analyze_farm` run: the band counts of the two mosaics, the two
`reduceRegion` sums (`d_m2`, `t_m2`, each `getInfo() or 0.0`, so a missing
value resolves to 0), the thumbnail URL, and the overlay fetch outcome
(`none` when the HTTP fetch fails or returns non-200 — caught, non-fatal).
The date-string metadata fields (`before_date`, `after_date`,
`incident_date`), computed by the standard datetime library and never read
by any verified property, are omitted from the embedded result records. -/

/-- Remote results consumed by one `analyze_farm` run. -/
structure FarmEnv where
  beforeBands : ℕ
  afterBands : ℕ
  d_m2 : Option ℚ
  t_m2 : Option ℚ
  tileUrl : String
  overlayFetch : Option String
  deriving DecidableEq, Repr

/-- `analyze_farm`'s two dict shapes: the zero-valued no-data dict (the
only one carrying an `'error'` key) and the success dict. -/
inductive FarmResult where
  | noData (damage_percent damaged_area_ha total_area_ha : ℚ)
      (overlay_b64 : String) (error : String)
  | success (damageAreaHa farmAreaHa damagePercent : ℚ) (tileUrl : String)
      (overlay_b64 : Option String)
  deriving DecidableEq, Repr

/-- The no-data error message built at gee_service.py line 92. -/
def farmErrMsg (beforeBands afterBands : ℕ) : String :=
  "No Sentinel-1 images found for the specified date range. Before: " ++
    toString beforeBands ++ " bands, After: " ++ toString afterBands ++ " bands"

/-- `pct = (d_ha / t_ha * 100.0) if t_ha > 0 else 0.0` (lines 127 and 213). -/
def damage_pct (d_ha t_ha : ℚ) : ℚ :=
  if t_ha > 0 then d_ha / t_ha * 100 else 0

/-- `analyze_farm` (lines 36–160).  `Except.error` models the raised
exception when `init_gee()` fails. -/
def analyze_farm (initOk : Bool) (env : FarmEnv) : Except String FarmResult :=
  if ¬ initOk then .error "Google Earth Engine initialization failed"
  else if env.beforeBands = 0 ∨ env.afterBands = 0 then
    .ok (.noData 0 0 0 "" (farmErrMsg env.beforeBands env.afterBands))
  else
    let d_ha := env.d_m2.getD 0 / 10000
    let t_ha := env.t_m2.getD 0 / 10000
    let pct := damage_pct d_ha t_ha
    .ok (.success (pyRound2 d_ha) (pyRound2 t_ha) (pyRound2 pct)
      env.tileUrl env.overlayFetch)

/-- The dict returned by `analyze_property_gee` (lines 235–265). -/
structure GeeResult where
  damage_percent : ℚ
  damaged_area_ha : ℚ
  total_area_ha : ℚ
  estimated_cost : ℚ
  overlay_b64 : Option String
  tile_url : Option String
  analysis_type : String
  error : Option String
  deriving DecidableEq, Repr

/-- `analyze_property_gee`: one `analyze_farm` run plus cost. -/
def analyze_property_gee (initOk : Bool) (env : FarmEnv) (cost_per_ha : ℚ) :
    Except String GeeResult :=
  match analyze_farm initOk env with
  | .error e => .error e
  | .ok (.noData dp da ta ov err) =>
    .ok ⟨dp, da, ta, 0, some ov, none, "gee_sar", some err⟩
  | .ok (.success dAha fAha dPct tUrl ovb) =>
    .ok ⟨dPct, dAha, fAha, dAha * cost_per_ha, ovb, some tUrl, "gee_sar", none⟩

/-- The dict returned by `analyze_property_gee_comparison` (lines 162–233;
date-string metadata omitted, see section comment). -/
structure CompResult where
  damage_percent : ℚ
  damaged_area_ha : ℚ
  total_area_ha : ℚ
  estimated_cost : ℚ
  overlay_before_b64 : Option String
  overlay_after_b64 : Option String
  tile_url : Option String
  analysis_type : String
  error : Option String
  deriving DecidableEq, Repr

/-- `tileUrl` of a farm result via `.get('tileUrl')`: the no-data dict has
no such key (`None`), the success dict has it. -/
def FarmResult.tileUrlOpt : FarmResult → Option String
  | .noData _ _ _ _ _ => none
  | .success _ _ _ tUrl _ => some tUrl

/-- `analyze_property_gee_comparison`: two `analyze_farm` runs
(`result_before` over `[incident-30d, incident]`-anchored windows,
`result_after` over `[incident, incident+30d]`-anchored windows) reduced
per the error/success cases of lines 180–233. -/
def analyze_property_gee_comparison (initOk : Bool) (envB envA : FarmEnv)
    (cost_per_ha : ℚ) : Except String CompResult :=
  match analyze_farm initOk envB with
  | .error e => .error e
  | .ok rb =>
    match analyze_farm initOk envA with
    | .error e => .error e
    | .ok ra =>
      match rb, ra with
      | .noData _ _ _ _ _, .noData _ _ _ _ _ =>
        .ok ⟨0, 0, 0, 0, some "", some "", none, "gee_sar_comparison",
          some "No satellite data available for both periods"⟩
      | .noData _ _ _ _ _, .success dAha fAha dPct _ ovA =>
        let damage_ha := dAha
        let total_ha := fAha
        let dpct := dPct
        .ok ⟨pyRound2 dpct, pyRound2 damage_ha, pyRound2 total_ha,
          damage_ha * cost_per_ha, some "", ovA, ra.tileUrlOpt,
          "gee_sar_comparison", none⟩
      | .success dAha fAha dPct _ ovB, .noData _ _ _ _ _ =>
        let damage_ha := dAha
        let total_ha := fAha
        let dpct := dPct
        .ok ⟨pyRound2 dpct, pyRound2 damage_ha, pyRound2 total_ha,
          damage_ha * cost_per_ha, ovB, some "", rb.tileUrlOpt,
          "gee_sar_comparison", none⟩
      | .success dB _ _ _ ovB, .success dA fA _ _ ovA =>
        let damage_ha := |dA - dB|
        let total_ha := fA
        let dpct := damage_pct damage_ha total_ha
        .ok ⟨pyRound2 dpct, pyRound2 damage_ha, pyRound2 total_ha,
          damage_ha * cost_per_ha, ovB, ovA, ra.tileUrlOpt,
          "gee_sar_comparison", none⟩

/-! ### Concrete scenario data used by counterexamples and witnesses -/

/-- A concrete injected distance function: the pairwise distance is the
alert's latitude (chosen so the scan-order distances are easy to read). -/
def c1Dist : ℚ → ℚ → ℚ → ℚ → ℚ := fun _ _ alat _ => alat

/-- An alert 18 km away under `c1Dist`, radius 10 km. -/
def c1Alert1 : AlertRow := ⟨18, 0, some 10⟩

/-- An alert 3 km away under `c1Dist`, radius 10 km. -/
def c1Alert2 : AlertRow := ⟨3, 0, some 10⟩

/-- A property owned by `u1`. -/
def c1Prop : PropertyRow := ⟨"u1", 0, 0⟩

/-- A parsed FIRMS response missing the required latitude/longitude
columns but containing one row. -/
def c4DegradedFrame : Frame := ⟨["foo"], [⟨none, none, none, none⟩]⟩

/-- An `analyze_farm` environment whose after-window mosaic has zero bands. -/
def c6Env : FarmEnv := ⟨3, 0, some 50000, some 120000, "http://tile", some "OVL"⟩

/-- An `analyze_farm` environment for a fully successful run. -/
def cOkEnv : FarmEnv := ⟨2, 4, some 5000, some 120000, "http://tileB", some "B64B"⟩

/-- A second fully successful `analyze_farm` environment. -/
def cOkEnv2 : FarmEnv := ⟨1, 2, some 25000, some 120000, "http://tileA", some "B64A"⟩

/-! ## Supporting lemmas -/

theorem roundHalfEven_intCast (n : ℤ) : roundHalfEven (n : ℚ) = n := by
  simp [roundHalfEven]

theorem cent_pyRound2 (x : ℚ) : Cent (pyRound2 x) := ⟨roundHalfEven (x * 100), rfl⟩

theorem pyRound2_of_cent {x : ℚ} (h : Cent x) : pyRound2 x = x := by
  obtain ⟨n, rfl⟩ := h
  have h100 : ((n : ℚ) / 100) * 100 = (n : ℚ) := by ring
  rw [pyRound2, h100, roundHalfEven_intCast]

theorem pyRound2_idem (x : ℚ) : pyRound2 (pyRound2 x) = pyRound2 x :=
  pyRound2_of_cent (cent_pyRound2 x)

theorem pyRound2_zero : pyRound2 0 = 0 :=
  pyRound2_of_cent ⟨0, by norm_num⟩

theorem cent_sub {x y : ℚ} (hx : Cent x) (hy : Cent y) : Cent (x - y) := by
  obtain ⟨n, rfl⟩ := hx
  obtain ⟨m, rfl⟩ := hy
  exact ⟨n - m, by push_cast; ring⟩

theorem cent_abs {x : ℚ} (hx : Cent x) : Cent |x| := by
  obtain ⟨n, rfl⟩ := hx
  rcases abs_choice ((n : ℚ) / 100) with h | h
  · exact ⟨n, h⟩
  · exact ⟨-n, by rw [h]; push_cast; ring⟩

theorem nearbyFor_property {dist alerts p} {m : AlertMatch}
    (h : m ∈ nearbyFor dist alerts p) : m.property = p := by
  simp only [nearbyFor, List.mem_filterMap] at h
  obtain ⟨al, _, hal⟩ := h
  by_cases hr : is_relevant (dist p.center_lat p.center_lng al.lat al.lng) al.radius_km
  · simp [hr] at hal
    rw [← hal]
  · simp [hr] at hal

theorem nearbyFor_filter_user (dist alerts p uid) :
    (nearbyFor dist alerts p).filter (fun m => m.property.user_id = uid) =
      if p.user_id = uid then nearbyFor dist alerts p else [] := by
  by_cases h : p.user_id = uid
  · rw [if_pos h, List.filter_eq_self]
    intro m hm
    simp [nearbyFor_property hm, h]
  · rw [if_neg h, List.filter_eq_nil_iff]
    intro m hm
    simp [nearbyFor_property hm, h]

theorem listLookup_insertAppend (m : List (String × List AlertMatch))
    (uid : String) (ps : List AlertMatch) (uid' : String) :
    listLookup (insertAppend m uid ps) uid' =
      if uid' = uid then some ((listLookup m uid).getD [] ++ ps)
      else listLookup m uid' := by
  induction m with
  | nil =>
    by_cases h : uid = uid'
    · subst h
      simp [insertAppend, listLookup]
    · have h' : ¬ uid' = uid := fun hc => h hc.symm
      simp [insertAppend, listLookup, h, h']
  | cons kv rest ih =>
    obtain ⟨k, v⟩ := kv
    by_cases hk : k = uid
    · subst hk
      by_cases h : k = uid'
      · subst h
        simp [insertAppend, listLookup]
      · have h' : ¬ uid' = k := fun hc => h hc.symm
        simp [insertAppend, listLookup, h, h']
    · by_cases h : k = uid'
      · have h2 : ¬ uid' = uid := fun hc => hk (h.trans hc)
        simp [insertAppend, listLookup, hk, h, h2]
      · have h' : ¬ uid' = k := fun hc => h hc.symm
        simp [insertAppend, listLookup, hk, h, ih]

theorem scanStep_of_empty {dist alerts p} (m : List (String × List AlertMatch))
    (h : nearbyFor dist alerts p = []) : scanStep dist alerts m p = m := by
  simp [scanStep, h]

theorem scanStep_of_ne {dist alerts p} (m : List (String × List AlertMatch))
    (h : ¬ nearbyFor dist alerts p = []) :
    scanStep dist alerts m p = insertAppend m p.user_id (nearbyFor dist alerts p) := by
  simp only [scanStep, List.isEmpty_iff]
  rw [if_neg h]

/-- Accumulator-generalised correctness of the map-building fold. -/
theorem user_alerts_fold_lookup (dist : ℚ → ℚ → ℚ → ℚ → ℚ)
    (alerts : List AlertRow) (props : List PropertyRow)
    (m₀ : List (String × List AlertMatch)) (uid : String) :
    listLookup (props.foldl (scanStep dist alerts) m₀) uid =
      match listLookup m₀ uid,
          (scanList dist props alerts).filter
            (fun m => m.property.user_id = uid) with
      | none, [] => none
      | none, l => some l
      | some v, l => some (v ++ l) := by
  induction props generalizing m₀ with
  | nil =>
    simp only [List.foldl_nil, scanList, List.map_nil, List.flatten_nil,
      List.filter_nil]
    cases listLookup m₀ uid <;> simp
  | cons p ps ih =>
    have hscan : (scanList dist (p :: ps) alerts).filter
        (fun m => m.property.user_id = uid) =
        ((nearbyFor dist alerts p).filter (fun m => m.property.user_id = uid)) ++
          ((scanList dist ps alerts).filter (fun m => m.property.user_id = uid)) := by
      simp [scanList, List.filter_append]
    rw [List.foldl_cons]
    by_cases hnb : nearbyFor dist alerts p = []
    · rw [scanStep_of_empty m₀ hnb, ih m₀, hscan, hnb, List.filter_nil,
        List.nil_append]
    · rw [scanStep_of_ne m₀ hnb, ih _, hscan, listLookup_insertAppend,
        nearbyFor_filter_user]
      by_cases huid : uid = p.user_id
      · have huid' : p.user_id = uid := huid.symm
        rw [if_pos huid, if_pos huid', ← huid]
        cases hl : listLookup m₀ uid with
        | none =>
          simp only [hl, Option.getD_none, List.nil_append]
          cases (scanList dist ps alerts).filter
              (fun m => m.property.user_id = uid) with
          | nil => simp [hnb]
          | cons a l => simp [List.append_assoc]
        | some v =>
          simp only [hl, Option.getD_some]
          cases (scanList dist ps alerts).filter
              (fun m => m.property.user_id = uid) with
          | nil => simp
          | cons a l => simp [List.append_assoc]
      · have huid' : ¬ p.user_id = uid := fun hc => huid hc.symm
        rw [if_neg huid, if_neg huid', List.nil_append]

theorem user_alerts_map_lookup (dist : ℚ → ℚ → ℚ → ℚ → ℚ)
    (props : List PropertyRow) (alerts : List AlertRow) (uid : String) :
    listLookup (user_alerts_map dist props alerts) uid =
      match (scanList dist props alerts).filter
          (fun m => m.property.user_id = uid) with
      | [] => none
      | l => some l := by
  rw [user_alerts_map, user_alerts_fold_lookup]
  simp only [listLookup]
  cases (scanList dist props alerts).filter (fun m => m.property.user_id = uid) <;> rfl

/-- In exact arithmetic the haversine intermediate always lies in `[0, 1]`
(for arbitrary real inputs, not only latitudes in `[-90, 90]`). -/
theorem haversine_a_mem_Icc (lat1 lng1 lat2 lng2 : ℝ) :
    0 ≤ haversine_a lat1 lng1 lat2 lng2 ∧ haversine_a lat1 lng1 lat2 lng2 ≤ 1 := by
  set x1 := radians lat1 with hx1
  set x2 := radians lat2 with hx2
  have hdl : radians (lat2 - lat1) = x2 - x1 := by
    simp only [hx1, hx2, radians]; ring
  set t := Real.sin (radians (lng2 - lng1) / 2) ^ 2 with ht
  have ht0 : 0 ≤ t := sq_nonneg _
  have ht1 : t ≤ 1 := by
    have h1 := Real.neg_one_le_sin (radians (lng2 - lng1) / 2)
    have h2 := Real.sin_le_one (radians (lng2 - lng1) / 2)
    nlinarith
  set A := Real.sin ((x2 - x1) / 2) ^ 2 with hA
  have hA0 : 0 ≤ A := sq_nonneg _
  have hA1 : A ≤ 1 := by
    have h1 := Real.neg_one_le_sin ((x2 - x1) / 2)
    have h2 := Real.sin_le_one ((x2 - x1) / 2)
    nlinarith
  set P := Real.cos x1 * Real.cos x2 with hP
  have hkey : A + P = (1 + Real.cos (x1 + x2)) / 2 := by
    have hs : Real.sin ((x2 - x1) / 2) ^ 2 = 1 / 2 - Real.cos (x2 - x1) / 2 := by
      have := Real.cos_sq ((x2 - x1) / 2)
      have harg : 2 * ((x2 - x1) / 2) = x2 - x1 := by ring
      have hsc := Real.sin_sq_add_cos_sq ((x2 - x1) / 2)
      rw [harg] at this
      linarith
    rw [hA, hs, hP, Real.cos_sub, Real.cos_add]
    ring
  have hcb1 : -1 ≤ Real.cos (x1 + x2) := Real.neg_one_le_cos _
  have hcb2 : Real.cos (x1 + x2) ≤ 1 := Real.cos_le_one _
  have hgoal : haversine_a lat1 lng1 lat2 lng2 = A + P * t := by
    simp only [haversine_a, hdl, hA, hP, ht]
  rw [hgoal]
  constructor
  · rcases le_or_lt 0 P with hp | hp
    · have : 0 ≤ P * t := mul_nonneg hp ht0
      linarith
    · have hPt : P ≤ P * t := by nlinarith
      linarith
  · rcases le_or_lt P 0 with hp | hp
    · have : P * t ≤ 0 := mul_nonpos_of_nonpos_of_nonneg hp ht0
      linarith
    · have hPt : P * t ≤ P := by nlinarith
      linarith

/-- `atan2` is non-negative on non-negative arguments. -/
theorem pyAtan2_nonneg {y x : ℝ} (hy : 0 ≤ y) (hx : 0 ≤ x) : 0 ≤ pyAtan2 y x := by
  unfold pyAtan2
  rcases lt_or_eq_of_le hx with hx' | hx'
  · rw [if_pos hx']
    have hd : 0 ≤ y / x := div_nonneg hy hx
    rw [← Real.arctan_zero]
    exact Real.arctan_strictMono.monotone hd
  · rw [if_neg (lt_irrefl x ∘ (hx' ▸ id)), if_neg (by rw [← hx']; exact lt_irrefl 0)]
    rcases lt_or_eq_of_le hy with hy' | hy'
    · rw [if_pos hy']
      positivity
    · rw [if_neg (by rw [← hy']; exact lt_irrefl 0), if_neg (by rw [← hy']; exact lt_irrefl 0)]

theorem pyEndsWith_append (a suf : String) : pyEndsWith (a ++ suf) suf = true := by
  have h : suf.data <:+ (a ++ suf).data := by
    rw [String.data_append]
    exact List.suffix_append a.data suf.data
  exact decide_eq_true h

theorem fallbackEmail_endsWith (user_id : String) :
    pyEndsWith (fallbackEmail user_id) "@example.com" = true := by
  have h : fallbackEmail user_id = ("user-" ++ user_id.take 8) ++ "@example.com" := by
    simp [fallbackEmail, String.append_assoc]
  rw [h]
  exact pyEndsWith_append _ _

theorem pyOrStr_ne_empty (a : Option String) (dflt : String) (h : dflt ≠ "") :
    pyOrStr a dflt ≠ "" := by
  unfold pyOrStr
  match a with
  | none => exact h
  | some s =>
    by_cases hs : s = ""
    · simp [hs, h]
    · simp [hs]

theorem fallbackEmail_ne_empty (user_id : String) : fallbackEmail user_id ≠ "" := by
  intro h
  have hl : (fallbackEmail user_id).length = 0 := by rw [h]; rfl
  rw [fallbackEmail, String.length_append, String.length_append] at hl
  have h5 : ("user-" : String).length = 5 := rfl
  have h12 : ("@example.com" : String).length = 12 := rfl
  omega

/-- A string append is non-empty when its left part is. -/
theorem append_ne_empty_left {a : String} (b : String) (ha : a ≠ "") :
    a ++ b ≠ "" := by
  intro h
  apply ha
  have hd : (a ++ b).data = [] := by rw [h]
  rw [String.data_append] at hd
  have h2 : a.data = [] := (List.append_eq_nil.mp hd).1
  exact String.ext h2

theorem farmErrMsg_ne_empty (b a : ℕ) : farmErrMsg b a ≠ "" := by
  unfold farmErrMsg
  apply append_ne_empty_left
  apply append_ne_empty_left
  apply append_ne_empty_left
  apply append_ne_empty_left
  decide

/-- Every field of a successful `analyze_farm` result is a whole number of
hundredths. -/
theorem analyze_farm_success_cent {initOk env dAha fAha dPct tUrl ovb}
    (h : analyze_farm initOk env = .ok (.success dAha fAha dPct tUrl ovb)) :
    Cent dAha ∧ Cent fAha ∧ Cent dPct := by
  unfold analyze_farm at h
  by_cases hi : initOk
  · simp only [hi, not_true, if_false] at h
    by_cases hb : env.beforeBands = 0 ∨ env.afterBands = 0
    · rw [if_pos hb] at h
      exact absurd h (by simp)
    · rw [if_neg hb] at h
      simp only [Except.ok.injEq, FarmResult.success.injEq] at h
      obtain ⟨h1, h2, h3, _, _⟩ := h
      exact ⟨h1 ▸ cent_pyRound2 _, h2 ▸ cent_pyRound2 _, h3 ▸ cent_pyRound2 _⟩
  · simp [hi] at h

/-- Shape of the no-data result of `analyze_farm`. -/
theorem analyze_farm_noData_eq {initOk env dp da ta ov err}
    (h : analyze_farm initOk env = .ok (.noData dp da ta ov err)) :
    dp = 0 ∧ da = 0 ∧ ta = 0 ∧ ov = "" ∧
      err = farmErrMsg env.beforeBands env.afterBands := by
  unfold analyze_farm at h
  by_cases hi : initOk
  · simp only [hi, not_true, if_false] at h
    by_cases hb : env.beforeBands = 0 ∨ env.afterBands = 0
    · rw [if_pos hb] at h
      simp only [Except.ok.injEq, FarmResult.noData.injEq] at h
      obtain ⟨h1, h2, h3, h4, h5⟩ := h
      exact ⟨h1.symm, h2.symm, h3.symm, h4.symm, h5.symm⟩
    · rw [if_neg hb] at h
      exact absurd h (by simp)
  · simp [hi] at h

/-- With zero bands in either window, `analyze_farm` returns the no-data dict. -/
theorem analyze_farm_noData_of_bands {env : FarmEnv}
    (h : env.beforeBands = 0 ∨ env.afterBands = 0) :
    analyze_farm true env =
      .ok (.noData 0 0 0 "" (farmErrMsg env.beforeBands env.afterBands)) := by
  unfold analyze_farm
  rw [if_neg (by simp), if_pos h]

/-- Reduction of `get_active_fires` on a parsed response with an API key
and a well-formed bbox. -/
theorem get_active_fires_ok_red (c : FIRMSClient) (bbox : List ℚ) (df : Frame)
    (hk : c.api_key ≠ "") (hb : bbox.length = 4) :
    get_active_fires c bbox (.ok df) =
      (if df.rows.isEmpty then .ok emptyFrame
       else if "latitude" ∉ df.columns ∨ "longitude" ∉ df.columns then .ok emptyFrame
       else .ok ⟨["latitude", "longitude", "confidence", "bright_ti4"],
         df.rows.map fun r =>
           { r with
             confidence :=
               if "confidence" ∈ df.columns then r.confidence else some "unknown",
             bright_ti4 :=
               if "bright_ti4" ∈ df.columns then r.bright_ti4 else some 300 }⟩) := by
  unfold get_active_fires
  rw [if_neg hk, if_neg (by simp [hb])]

/-! ## Claims -/

/-- C5 (counterexample): the claim states `distance_km` guards the
argument of each square root to lie in `[0, 1]`, so that no domain error
occurs "even when floating-point overshoot makes the haversine
intermediate exceed 1".  The source contains no such guard:
`calculate_distance_km lat1 lng1 lat2 lng2` is definitionally
`distanceFromA (haversine_a lat1 lng1 lat2 lng2)`, and `distanceFromA`
applied to an intermediate exceeding 1 — here 2 — hits `math.sqrt` of a
negative number, i.e. a `ValueError` (`none`), not a well-defined float. -/
theorem C5_counterexample_no_sqrt_guard : distanceFromA 2 = none := by
  have h1 : pySqrt (2 : ℝ) = some (Real.sqrt 2) := by
    rw [pySqrt, if_pos (by norm_num : (0:ℝ) ≤ 2)]
  have h2 : pySqrt (1 - 2 : ℝ) = none := by
    rw [pySqrt, if_neg (by norm_num : ¬ (0:ℝ) ≤ 1 - 2)]
  simp [distanceFromA, h1, h2]

/-- C5 (amended): the source computes
`a = sin²(Δlat/2) + cos(lat1)·cos(lat2)·sin²(Δlng/2)` and applies
`sqrt(a)` and `sqrt(1 - a)` with **no clamping**.  In exact real
arithmetic the intermediate always lies in `[0, 1]` (for all real inputs,
antipodal and near-identical included), so both square roots are defined
and the function returns a well-defined non-negative value; the guard the
claim describes does not exist, and only floating-point overshoot past 1
(impossible in exact arithmetic) could trigger the domain error exhibited
by the counterexample. -/
theorem C5_distance_well_defined_nonneg (lat1 lng1 lat2 lng2 : ℝ) :
    ∃ d : ℝ, calculate_distance_km lat1 lng1 lat2 lng2 = some d ∧ 0 ≤ d := by
  obtain ⟨h0, h1⟩ := haversine_a_mem_Icc lat1 lng1 lat2 lng2
  set a := haversine_a lat1 lng1 lat2 lng2 with ha
  refine ⟨6371 * (2 * pyAtan2 (Real.sqrt a) (Real.sqrt (1 - a))), ?_, ?_⟩
  · have hs1 : pySqrt a = some (Real.sqrt a) := by rw [pySqrt, if_pos h0]
    have hs2 : pySqrt (1 - a) = some (Real.sqrt (1 - a)) := by
      rw [pySqrt, if_pos (by linarith)]
    rw [calculate_distance_km, ← ha, distanceFromA, hs1, hs2]
    rfl
  · have hat := pyAtan2_nonneg (Real.sqrt_nonneg a) (Real.sqrt_nonneg (1 - a))
    have h2 : (0:ℝ) ≤ 2 * pyAtan2 (Real.sqrt a) (Real.sqrt (1 - a)) := by linarith
    nlinarith

/-- C6: in single-window mode, if either composite has zero bands, the
estimator returns (does not raise): `analyze_farm` yields the zero-valued
no-data dict with a non-empty error string, and `analyze_property_gee`
propagates it as damage percent 0, damaged area 0, total area 0, estimated
cost 0, with the same non-empty error field. -/
theorem C6_no_data_zero_result (env : FarmEnv) (cost : ℚ)
    (h : env.beforeBands = 0 ∨ env.afterBands = 0) :
    analyze_farm true env =
      .ok (.noData 0 0 0 "" (farmErrMsg env.beforeBands env.afterBands)) ∧
    farmErrMsg env.beforeBands env.afterBands ≠ "" ∧
    analyze_property_gee true env cost =
      .ok ⟨0, 0, 0, 0, some "", none, "gee_sar",
        some (farmErrMsg env.beforeBands env.afterBands)⟩ := by
  have hfa : analyze_farm true env =
      .ok (.noData 0 0 0 "" (farmErrMsg env.beforeBands env.afterBands)) := by
    unfold analyze_farm
    rw [if_neg (by simp), if_pos h]
  refine ⟨hfa, farmErrMsg_ne_empty _ _, ?_⟩
  unfold analyze_property_gee
  rw [hfa]

/-- C6 (witness): concrete run with zero bands in the after window. -/
theorem C6_witness :
    analyze_farm true c6Env =
      .ok (.noData 0 0 0 "" (farmErrMsg c6Env.beforeBands c6Env.afterBands)) ∧
    farmErrMsg c6Env.beforeBands c6Env.afterBands ≠ "" ∧
    analyze_property_gee true c6Env 5000 =
      .ok ⟨0, 0, 0, 0, some "", none, "gee_sar",
        some (farmErrMsg c6Env.beforeBands c6Env.afterBands)⟩ :=
  C6_no_data_zero_result c6Env 5000 (Or.inr rfl)

/-- C7: the computed damage percent (gee_service.py line 127, reused at
line 213) is `d_ha / t_ha * 100` when `total_ha > 0` and exactly `0` when
`total_ha = 0` (no division by zero), and lies in `[0, 100]` whenever
`total_ha > 0` — given the geometric invariant, guaranteed by the remote
reduction, that the damaged-pixel area sum is between 0 and the
total-area sum.  The final conjunct ties the definition to the estimator:
a successful `analyze_farm` run reports exactly the rounded
`damage_pct` of its two converted area sums. -/
theorem C7_damage_percent_bounds (d_ha t_ha : ℚ) (env : FarmEnv) :
    (t_ha = 0 → damage_pct d_ha t_ha = 0) ∧
    (0 < t_ha → damage_pct d_ha t_ha = d_ha / t_ha * 100) ∧
    (0 < t_ha → 0 ≤ d_ha → d_ha ≤ t_ha →
      0 ≤ damage_pct d_ha t_ha ∧ damage_pct d_ha t_ha ≤ 100) ∧
    (¬ (env.beforeBands = 0 ∨ env.afterBands = 0) →
      analyze_farm true env =
        .ok (.success (pyRound2 (env.d_m2.getD 0 / 10000))
          (pyRound2 (env.t_m2.getD 0 / 10000))
          (pyRound2 (damage_pct (env.d_m2.getD 0 / 10000) (env.t_m2.getD 0 / 10000)))
          env.tileUrl env.overlayFetch)) := by
  refine ⟨?_, ?_, ?_, ?_⟩
  · intro h
    simp [damage_pct, h]
  · intro h
    simp [damage_pct, h]
  · intro ht hd hdt
    rw [damage_pct, if_pos ht]
    constructor
    · have hq : 0 ≤ d_ha / t_ha := div_nonneg hd ht.le
      linarith
    · have hq : d_ha / t_ha ≤ 1 := (div_le_one ht).mpr hdt
      linarith
  · intro hb
    unfold analyze_farm
    rw [if_neg (by simp), if_neg hb]

/-- C7 (witness): concrete bounds instance at `d_ha = 1`, `t_ha = 4`. -/
theorem C7_witness :
    0 ≤ damage_pct 1 4 ∧ damage_pct 1 4 ≤ 100 :=
  (C7_damage_percent_bounds 1 4 cOkEnv).2.2.1 (by norm_num) (by norm_num) (by norm_num)

/-- C3: in every non-raising estimator run (single-window and comparison
mode alike), the returned `estimated_cost` equals the returned
`damaged_area_ha` times `cost_per_ha`, exactly — the code multiplies the
unrounded internal damaged area, but that value is itself a whole number
of hundredths, so it coincides with the rounded reported field. -/
theorem C3_estimated_cost_exact (initOk : Bool) (env envB envA : FarmEnv)
    (cost : ℚ) (_hc : 0 ≤ cost) :
    (∀ r : GeeResult, analyze_property_gee initOk env cost = .ok r →
      r.estimated_cost = r.damaged_area_ha * cost) ∧
    (∀ r : CompResult,
      analyze_property_gee_comparison initOk envB envA cost = .ok r →
      r.estimated_cost = r.damaged_area_ha * cost) := by
  constructor
  · intro r hr
    unfold analyze_property_gee at hr
    cases hfa : analyze_farm initOk env with
    | error e => rw [hfa] at hr; exact absurd hr (by simp)
    | ok fr =>
      rw [hfa] at hr
      cases fr with
      | noData dp da ta ov err =>
        obtain ⟨_, hda, _, _, _⟩ := analyze_farm_noData_eq hfa
        simp only [Except.ok.injEq] at hr
        subst hr
        simp [hda]
      | success dAha fAha dPct tUrl ovb =>
        simp only [Except.ok.injEq] at hr
        subst hr
        rfl
  · intro r hr
    unfold analyze_property_gee_comparison at hr
    cases hfb : analyze_farm initOk envB with
    | error e => rw [hfb] at hr; exact absurd hr (by simp)
    | ok rb =>
      cases hfa : analyze_farm initOk envA with
      | error e => rw [hfb, hfa] at hr; exact absurd hr (by simp)
      | ok ra =>
        rw [hfb, hfa] at hr
        cases rb with
        | noData dpB daB taB ovB errB =>
          cases ra with
          | noData dpA daA taA ovA errA =>
            simp only [Except.ok.injEq] at hr
            subst hr
            simp
          | success dA fA pA tA oA =>
            obtain ⟨hcA, _, _⟩ := analyze_farm_success_cent hfa
            simp only [Except.ok.injEq] at hr
            subst hr
            show dA * cost = pyRound2 dA * cost
            rw [pyRound2_of_cent hcA]
        | success dB fB pB tB oB =>
          obtain ⟨hcB, _, _⟩ := analyze_farm_success_cent hfb
          cases ra with
          | noData dpA daA taA ovA errA =>
            simp only [Except.ok.injEq] at hr
            subst hr
            show dB * cost = pyRound2 dB * cost
            rw [pyRound2_of_cent hcB]
          | success dA fA pA tA oA =>
            obtain ⟨hcA, _, _⟩ := analyze_farm_success_cent hfa
            simp only [Except.ok.injEq] at hr
            subst hr
            show |dA - dB| * cost = pyRound2 |dA - dB| * cost
            rw [pyRound2_of_cent (cent_abs (cent_sub hcA hcB))]

/-- C3 (witness): a concrete single-window run; the reported cost equation
holds at `cost_per_ha = 5000`. -/
theorem C3_witness :
    (⟨417/100, 1/2, 12, 1/2 * 5000, some "B64B", some "http://tileB",
        "gee_sar", none⟩ : GeeResult).estimated_cost =
      (⟨417/100, 1/2, 12, 1/2 * 5000, some "B64B", some "http://tileB",
        "gee_sar", none⟩ : GeeResult).damaged_area_ha * 5000 :=
  (C3_estimated_cost_exact true cOkEnv cOkEnv cOkEnv2 5000 (by norm_num)).1
    ⟨417/100, 1/2, 12, 1/2 * 5000, some "B64B", some "http://tileB",
      "gee_sar", none⟩
    (by norm_num [analyze_property_gee, analyze_farm, cOkEnv, damage_pct,
      pyRound2, roundHalfEven])

/-- C2: comparison-mode degradation.  (i) If both 30-day periods lack
data, the result is the failed record with zero damage values and a
populated (non-empty) error field.  (ii)/(iii) If exactly one period lacks
data, the returned damage percent, damaged area, total area and overlay
are exactly those of the other period's run, and the missing period's
overlay field is the empty string.  (iv) If both periods succeed, the
reported `damaged_area_ha` is exactly `|after damaged − before damaged|`. -/
theorem C2_comparison_period_fallback (envB envA : FarmEnv) (cost : ℚ) :
    ((envB.beforeBands = 0 ∨ envB.afterBands = 0) →
     (envA.beforeBands = 0 ∨ envA.afterBands = 0) →
      analyze_property_gee_comparison true envB envA cost =
        .ok ⟨0, 0, 0, 0, some "", some "", none, "gee_sar_comparison",
          some "No satellite data available for both periods"⟩ ∧
      ("No satellite data available for both periods" : String) ≠ "") ∧
    (∀ dA fA pA tA oA, (envB.beforeBands = 0 ∨ envB.afterBands = 0) →
      analyze_farm true envA = .ok (.success dA fA pA tA oA) →
      analyze_property_gee_comparison true envB envA cost =
        .ok ⟨pA, dA, fA, dA * cost, some "", oA, some tA,
          "gee_sar_comparison", none⟩) ∧
    (∀ dB fB pB tB oB, (envA.beforeBands = 0 ∨ envA.afterBands = 0) →
      analyze_farm true envB = .ok (.success dB fB pB tB oB) →
      analyze_property_gee_comparison true envB envA cost =
        .ok ⟨pB, dB, fB, dB * cost, oB, some "", some tB,
          "gee_sar_comparison", none⟩) ∧
    (∀ dB fB pB tB oB dA fA pA tA oA,
      analyze_farm true envB = .ok (.success dB fB pB tB oB) →
      analyze_farm true envA = .ok (.success dA fA pA tA oA) →
      analyze_property_gee_comparison true envB envA cost =
        .ok ⟨pyRound2 (damage_pct |dA - dB| fA), |dA - dB|, fA,
          |dA - dB| * cost, oB, oA, some tA, "gee_sar_comparison", none⟩) := by
  refine ⟨?_, ?_, ?_, ?_⟩
  · intro hB hA
    refine ⟨?_, by decide⟩
    unfold analyze_property_gee_comparison
    rw [analyze_farm_noData_of_bands hB, analyze_farm_noData_of_bands hA]
  · intro dA fA pA tA oA hB hfa
    obtain ⟨hcA, hcfA, hcpA⟩ := analyze_farm_success_cent hfa
    unfold analyze_property_gee_comparison
    rw [analyze_farm_noData_of_bands hB, hfa]
    simp only [FarmResult.tileUrlOpt]
    rw [pyRound2_of_cent hcpA, pyRound2_of_cent hcA, pyRound2_of_cent hcfA]
  · intro dB fB pB tB oB hA hfb
    obtain ⟨hcB, hcfB, hcpB⟩ := analyze_farm_success_cent hfb
    unfold analyze_property_gee_comparison
    rw [hfb, analyze_farm_noData_of_bands hA]
    simp only [FarmResult.tileUrlOpt]
    rw [pyRound2_of_cent hcpB, pyRound2_of_cent hcB, pyRound2_of_cent hcfB]
  · intro dB fB pB tB oB dA fA pA tA oA hfb hfa
    obtain ⟨hcB, _, _⟩ := analyze_farm_success_cent hfb
    obtain ⟨hcA, hcfA, _⟩ := analyze_farm_success_cent hfa
    unfold analyze_property_gee_comparison
    rw [hfb, hfa]
    simp only [FarmResult.tileUrlOpt]
    rw [pyRound2_of_cent (cent_abs (cent_sub hcA hcB)), pyRound2_of_cent hcfA]

/-- C2 (witness): a run whose before period lacks data and whose after
period succeeds reports exactly the after period's numbers and overlay,
with an empty before-period overlay. -/
theorem C2_witness :
    analyze_property_gee_comparison true c6Env cOkEnv 5000 =
      .ok ⟨417/100, 1/2, 12, 1/2 * 5000, some "", some "B64B",
        some "http://tileB", "gee_sar_comparison", none⟩ :=
  (C2_comparison_period_fallback c6Env cOkEnv 5000).2.1
    (1/2) 12 (417/100) "http://tileB" (some "B64B") (Or.inr rfl)
    (by norm_num [analyze_farm, cOkEnv, damage_pct, pyRound2, roundHalfEven])

/-- C10: in comparison mode with both periods succeeding, the returned
`total_area_ha` and the denominator of the damage percent are taken solely
from the after period's farm area (`fA`): the result equals the explicit
record built from `|dA − dB|` and `fA`, for **every** before-period farm
area `fB`, and the computed percent (before the 2-decimal rounding of the
reported field) is `|dA − dB| / fA * 100` when `fA > 0` and `0` when
`fA = 0`. -/
theorem C10_after_period_denominator (envB envA : FarmEnv) (cost : ℚ) :
    ∀ dB fB pB tB oB dA fA pA tA oA,
      analyze_farm true envB = .ok (.success dB fB pB tB oB) →
      analyze_farm true envA = .ok (.success dA fA pA tA oA) →
      (analyze_property_gee_comparison true envB envA cost =
        .ok ⟨pyRound2 (damage_pct |dA - dB| fA), |dA - dB|, fA,
          |dA - dB| * cost, oB, oA, some tA, "gee_sar_comparison", none⟩) ∧
      (0 < fA → damage_pct |dA - dB| fA = |dA - dB| / fA * 100) ∧
      (fA = 0 → pyRound2 (damage_pct |dA - dB| fA) = 0) := by
  intro dB fB pB tB oB dA fA pA tA oA hfb hfa
  obtain ⟨hcB, _, _⟩ := analyze_farm_success_cent hfb
  obtain ⟨hcA, hcfA, _⟩ := analyze_farm_success_cent hfa
  refine ⟨?_, ?_, ?_⟩
  · unfold analyze_property_gee_comparison
    rw [hfb, hfa]
    simp only [FarmResult.tileUrlOpt]
    rw [pyRound2_of_cent (cent_abs (cent_sub hcA hcB)), pyRound2_of_cent hcfA]
  · intro hf
    rw [damage_pct, if_pos hf]
  · intro hf
    rw [damage_pct, hf, if_neg (by norm_num), pyRound2_zero]

/-- C10 (witness): two concrete successful periods; the result uses the
after period's farm area (12 ha) as total and denominator. -/
theorem C10_witness :
    (analyze_property_gee_comparison true cOkEnv cOkEnv2 5000 =
      .ok ⟨pyRound2 (damage_pct |5/2 - 1/2| 12), |5/2 - 1/2|, 12,
        |5/2 - 1/2| * 5000, some "B64B", some "B64A", some "http://tileA",
        "gee_sar_comparison", none⟩) ∧
    (0 < (12:ℚ) → damage_pct |5/2 - 1/2| 12 = |5/2 - 1/2| / 12 * 100) ∧
    ((12:ℚ) = 0 → pyRound2 (damage_pct |5/2 - 1/2| 12) = 0) :=
  C10_after_period_denominator cOkEnv cOkEnv2 5000
    (1/2) 12 (417/100) "http://tileB" (some "B64B")
    (5/2) 12 (2083/100) "http://tileA" (some "B64A")
    (by norm_num [analyze_farm, cOkEnv, damage_pct, pyRound2, roundHalfEven])
    (by norm_num [analyze_farm, cOkEnv2, damage_pct, pyRound2, roundHalfEven])

/-- C4 (counterexample): the claim states that a response missing the
required latitude/longitude columns yields a non-empty fixed set of
placeholder points.  It does not: with an API key present, a well-formed
bbox and a parsed one-row table lacking both required columns, the code
returns `_empty_frame()` — zero rows. -/
theorem C4_counterexample_missing_columns :
    get_active_fires (FIRMSClient.make "key" 3) [1, 2, 3, 4] (.ok c4DegradedFrame) =
      .ok emptyFrame ∧ emptyFrame.rows = [] := by
  constructor
  · rfl
  · rfl

/-- C4 (amended): with a well-formed 4-element bbox, `get_active_fires`
never raises; a missing API key or a network/HTTP/parse failure returns
the fixed non-empty two-point mock frame, while a parsed response missing
a required column (API key present) returns the **empty** frame. -/
theorem C4_degraded_fallbacks (c : FIRMSClient) (bbox : List ℚ)
    (resp : HttpOutcome) (hb : bbox.length = 4) :
    (c.api_key = "" → get_active_fires c bbox resp = .ok mockFrame) ∧
    (resp = .failure → get_active_fires c bbox resp = .ok mockFrame) ∧
    mockFrame.rows ≠ [] ∧
    (∀ df : Frame, c.api_key ≠ "" → resp = .ok df → df.rows ≠ [] →
      ("latitude" ∉ df.columns ∨ "longitude" ∉ df.columns) →
      get_active_fires c bbox resp = .ok emptyFrame) ∧
    (∃ f : Frame, get_active_fires c bbox resp = .ok f) := by
  refine ⟨?_, ?_, by decide, ?_, ?_⟩
  · intro hk
    unfold get_active_fires
    rw [if_pos hk]
  · intro hr
    subst hr
    unfold get_active_fires
    by_cases hk : c.api_key = ""
    · rw [if_pos hk]
    · rw [if_neg hk, if_neg (by simp [hb])]
  · intro df hk hr hrows hcols
    subst hr
    rw [get_active_fires_ok_red c bbox df hk hb]
    have hie : df.rows.isEmpty = false := by
      simp [List.isEmpty_iff, hrows]
    rw [hie]
    simp only [Bool.false_eq_true, if_false]
    rw [if_pos hcols]
  · by_cases hk : c.api_key = ""
    · exact ⟨mockFrame, by unfold get_active_fires; rw [if_pos hk]⟩
    · cases resp with
      | failure =>
        refine ⟨mockFrame, ?_⟩
        unfold get_active_fires
        rw [if_neg hk, if_neg (by simp [hb])]
      | ok df =>
        rw [get_active_fires_ok_red c bbox df hk hb]
        split_ifs <;> exact ⟨_, rfl⟩

/-- C4 (witness): missing-key and network-failure instances both yield the
mock frame, which is non-empty. -/
theorem C4_witness :
    (get_active_fires (FIRMSClient.make "" 3) [1, 2, 3, 4] .failure = .ok mockFrame) ∧
    (get_active_fires (FIRMSClient.make "key" 3) [1, 2, 3, 4] .failure = .ok mockFrame) ∧
    mockFrame.rows ≠ [] :=
  ⟨(C4_degraded_fallbacks (FIRMSClient.make "" 3) [1, 2, 3, 4] .failure rfl).1 rfl,
   (C4_degraded_fallbacks (FIRMSClient.make "key" 3) [1, 2, 3, 4] .failure rfl).2.1 rfl,
   (C4_degraded_fallbacks (FIRMSClient.make "" 3) [1, 2, 3, 4] .failure rfl).2.2.1⟩

/-- C8 (counterexample): the claim's general rule says `is_within_radius`
iff `distance ≤ alert.radius_km` (10.0 only "when absent").  The code
evaluates `distance <= (alert.radius_km or 10.0)`, and Python's `or`
treats a **zero** radius as falsy too: at `radius_km = 0`, `distance = 5`
the code sets `is_within_radius = True` while the claimed formula gives
`5 ≤ 0`, i.e. `False`. -/
theorem C8_counterexample_zero_radius :
    is_within 5 (some 0) = true ∧ spec_within 5 (some 0) = false := by
  constructor
  · norm_num [is_within, pyDefault]
  · norm_num [spec_within]

/-- C8 (amended): the code's relevance test agrees with the claimed
formula `distance ≤ max(radius, 10) ∨ distance ≤ 20` at **every** input
(the fixed 20 km floor absorbs the radius-0 discrepancy);
`is_within_radius` holds iff `distance ≤ radius` with 10.0 substituted
when the radius is absent **or zero** (Python falsy), agreeing with the
claimed formula whenever the radius is not exactly 0.  The claim's
concrete examples hold: distance 15 with radius 10 is included but not
in-radius; distance 25 with radius 10 is excluded. -/
theorem C8_classification (d : ℚ) (r : Option ℚ) :
    is_relevant d r = spec_relevant d r ∧
    (is_within d r = true ↔ d ≤ pyDefault r) ∧
    (r ≠ some 0 → is_within d r = spec_within d r) ∧
    is_within 15 (some 10) = false ∧
    is_relevant 15 (some 10) = true ∧
    is_relevant 25 (some 10) = false := by
  refine ⟨?_, ?_, ?_, ?_, ?_, ?_⟩
  · have hiff : (is_relevant d r = true) ↔ (spec_relevant d r = true) := by
      simp only [is_relevant, spec_relevant, Bool.or_eq_true, decide_eq_true_eq]
      constructor
      · rintro (h | h)
        · left
          refine le_trans h ?_
          cases r with
          | none => simp [pyDefault]
          | some x =>
            by_cases hx : x = 0
            · simp [pyDefault, hx]
            · simp only [pyDefault, hx, if_false, Option.getD_some]
              exact le_max_left x 10
        · right; exact h
      · rintro (h | h)
        · cases r with
          | none =>
            left
            simpa [pyDefault] using h
          | some x =>
            by_cases hx : x = 0
            · right
              rw [hx] at h
              simp only [Option.getD_some] at h
              have h10 : max (0:ℚ) 10 = 10 := by norm_num
              rw [h10] at h
              linarith
            · simp only [Option.getD_some] at h
              rcases le_max_iff.mp h with h' | h'
              · left
                simpa [pyDefault, hx] using h'
              · right
                linarith
        · right; exact h
    cases h1 : is_relevant d r <;> cases h2 : spec_relevant d r <;> simp_all
  · simp [is_within]
  · intro hr
    cases r with
    | none => rfl
    | some x =>
      have hx : x ≠ 0 := fun hc => hr (by rw [hc])
      simp [is_within, spec_within, pyDefault, hx]
  · norm_num [is_within, pyDefault]
  · norm_num [is_relevant, pyDefault]
  · norm_num [is_relevant, pyDefault]

/-- C8 (witness): concrete instance with a present non-zero radius. -/
theorem C8_witness :
    is_within 15 (some 10) = spec_within 15 (some 10) ∧
    is_within 15 (some 10) = false ∧
    is_relevant 15 (some 10) = true ∧
    is_relevant 25 (some 10) = false :=
  ⟨(C8_classification 15 (some 10)).2.2.1 (by norm_num),
   (C8_classification 15 (some 10)).2.2.2.1,
   (C8_classification 15 (some 10)).2.2.2.2.1,
   (C8_classification 25 (some 10)).2.2.2.2.2⟩

/-- C9: the directory lookup is total and never yields an empty email; on
any API failure (exception or non-200 status) or on a 200 response with no
usable email field it resolves to the synthetic
`user-<id prefix>@example.com`; the dispatch step skips exactly the users
whose resolved email is absent or ends with `"@example.com"`; hence a
directory outage never causes a send to a fabricated address, and a
genuine email ending in `"@example.com"` is never notified. -/
theorem C9_directory_fallback_skip (user_id : String) (o : StackOutcome) :
    (get_user_email_from_stack user_id o).1 ≠ "" ∧
    (o = .failure →
      (get_user_email_from_stack user_id o).1 = fallbackEmail user_id) ∧
    (∀ st pe av dn mn, o = .response st pe av dn mn → st ≠ 200 →
      (get_user_email_from_stack user_id o).1 = fallbackEmail user_id) ∧
    (∀ pe av dn mn, o = .response 200 pe av dn mn →
      (pyOrOpt pe av = none ∨ pyOrOpt pe av = some "") →
      (get_user_email_from_stack user_id o).1 = fallbackEmail user_id) ∧
    (∀ e : String, sendsTo e = false ↔
      (e = "" ∨ pyEndsWith e "@example.com" = true)) ∧
    sendsTo (fallbackEmail user_id) = false ∧
    (∀ e : String, pyEndsWith e "@example.com" = true → sendsTo e = false) := by
  refine ⟨?_, ?_, ?_, ?_, ?_, ?_, ?_⟩
  · cases o with
    | failure => exact fallbackEmail_ne_empty user_id
    | response st pe av dn mn =>
      by_cases hst : st = 200
      · subst hst
        show pyOrStr (pyOrOpt pe av) (fallbackEmail user_id) ≠ ""
        exact pyOrStr_ne_empty _ _ (fallbackEmail_ne_empty _)
      · have hred : get_user_email_from_stack user_id (.response st pe av dn mn) =
            (fallbackEmail user_id, fallbackName user_id) := by
          simp [get_user_email_from_stack, hst]
        rw [hred]
        exact fallbackEmail_ne_empty user_id
  · intro h
    subst h
    rfl
  · intro st pe av dn mn h hst
    subst h
    simp [get_user_email_from_stack, hst]
  · intro pe av dn mn h hemail
    subst h
    show pyOrStr (pyOrOpt pe av) (fallbackEmail user_id) = fallbackEmail user_id
    rcases hemail with h' | h' <;> rw [h'] <;> rfl
  · intro e
    constructor
    · intro h
      by_cases he : e = ""
      · exact Or.inl he
      · right
        by_cases hw : pyEndsWith e "@example.com" = true
        · exact hw
        · exfalso
          have hs : sendsTo e = true := by
            simp only [sendsTo, Bool.and_eq_true, Bool.not_eq_true']
            exact ⟨by simp [he], by simp [Bool.eq_false_iff, hw]⟩
          rw [hs] at h
          exact absurd h (by simp)
    · rintro (he | hw)
      · simp [sendsTo, he]
      · simp [sendsTo, hw]
  · simp [sendsTo, fallbackEmail_endsWith]
  · intro e h
    simp [sendsTo, h]

/-- C9 (witness): a directory outage resolves to the synthetic address,
which is skipped; a genuine `@example.com` address is also skipped. -/
theorem C9_witness :
    (get_user_email_from_stack "abcdefgh-1234" .failure).1 =
      fallbackEmail "abcdefgh-1234" ∧
    sendsTo (fallbackEmail "abcdefgh-1234") = false ∧
    sendsTo "farmer@example.com" = false :=
  ⟨(C9_directory_fallback_skip "abcdefgh-1234" .failure).2.1 rfl,
   (C9_directory_fallback_skip "abcdefgh-1234" .failure).2.2.2.2.2.1,
   (C9_directory_fallback_skip "abcdefgh-1234" .failure).2.2.2.2.2.2
     "farmer@example.com" (by decide)⟩

/-- C1 (counterexample): the claim says the dispatched bundle is sorted by
ascending distance and capped to the ten closest.  The code never sorts:
`send_alert_email` renders `alert_data[:10]` in scan order.  Concretely,
with one property and two relevant alerts at distances 18 km and 3 km (in
load order), the user's bundle is `[18 km, 3 km]`, which differs from the
distance-sorted cap the claim describes (`[3 km, 18 km]`). -/
theorem C1_counterexample_unsorted :
    listLookup (user_alerts_map c1Dist [c1Prop] [c1Alert1, c1Alert2]) "u1" =
      some [⟨c1Alert1, c1Prop, 18, false⟩, ⟨c1Alert2, c1Prop, 3, true⟩] ∧
    emailRows [⟨c1Alert1, c1Prop, 18, false⟩, ⟨c1Alert2, c1Prop, 3, true⟩] ≠
      claimedBundle [⟨c1Alert1, c1Prop, 18, false⟩, ⟨c1Alert2, c1Prop, 3, true⟩] := by
  constructor
  · norm_num [user_alerts_map, scanStep, nearbyFor, insertAppend, listLookup,
      List.filterMap_cons, List.filterMap_nil, List.foldl_cons, List.foldl_nil,
      c1Dist, c1Prop, c1Alert1, c1Alert2, is_relevant, is_within, pyDefault,
      pyRound2, roundHalfEven]
  · norm_num [emailRows, claimedBundle, sortByDistance, insertByDist,
      c1Alert1, c1Alert2, c1Prop]

/-- C1 (amended): per cycle, each affected user's bundle is that user's
relevant (alert, property) pairs in **scan order** (properties in load
order, alerts in load order within each property), and the rendered email
caps it to the **first ten entries of that unsorted list** — not the ten
closest, and not sorted by distance. -/
theorem C1_bundle_scan_order (dist : ℚ → ℚ → ℚ → ℚ → ℚ)
    (props : List PropertyRow) (alerts : List AlertRow) (uid : String) :
    (listLookup (user_alerts_map dist props alerts) uid =
      match (scanList dist props alerts).filter
          (fun m => m.property.user_id = uid) with
      | [] => none
      | l => some l) ∧
    (∀ l, listLookup (user_alerts_map dist props alerts) uid = some l →
      emailRows l = l.take 10 ∧ l ≠ []) := by
  refine ⟨user_alerts_map_lookup dist props alerts uid, ?_⟩
  intro l hl
  refine ⟨rfl, ?_⟩
  rw [user_alerts_map_lookup] at hl
  cases hf : (scanList dist props alerts).filter
      (fun m => m.property.user_id = uid) with
  | nil =>
    rw [hf] at hl
    exact absurd hl (by simp)
  | cons a t =>
    rw [hf] at hl
    have : a :: t = l := by
      simpa using hl
    rw [← this]
    simp

/-- C1 (witness): the scan-order bundle of the concrete two-alert run is
rendered as its own first ten entries and is non-empty. -/
theorem C1_witness :
    emailRows [⟨c1Alert1, c1Prop, 18, false⟩, ⟨c1Alert2, c1Prop, 3, true⟩] =
      List.take 10 [⟨c1Alert1, c1Prop, 18, false⟩, ⟨c1Alert2, c1Prop, 3, true⟩] ∧
    ([⟨c1Alert1, c1Prop, 18, false⟩, ⟨c1Alert2, c1Prop, 3, true⟩] :
      List AlertMatch) ≠ [] :=
  (C1_bundle_scan_order c1Dist [c1Prop] [c1Alert1, c1Alert2] "u1").2
    [⟨c1Alert1, c1Prop, 18, false⟩, ⟨c1Alert2, c1Prop, 3, true⟩]
    (by norm_num [user_alerts_map, scanStep, nearbyFor, insertAppend, listLookup,
      List.filterMap_cons, List.filterMap_nil, List.foldl_cons, List.foldl_nil,
      c1Dist, c1Prop, c1Alert1, c1Alert2, is_relevant, is_within, pyDefault,
      pyRound2, roundHalfEven])

end Spotyfire
